import Mathlib

/-!
Verification of the torchsample tensor-transform pipeline
(src/torchsample/transforms/tensor_transforms.py) against its
natural-language specification.

Embedding conventions:
* a (rank-3) torch tensor is a nested list of rationals `T3`
  (channel, row, column); torch numeric values are modelled by `ℚ`;
* Python exceptions are modelled with `Except Err`;
* a Python call that returns either a bare tensor or a tuple is
  modelled by `PyOut`;
* the global random source is modelled explicitly: a stream of raw
  natural draws (`List ℕ`) for `random.randint`, and a permutation
  oracle `ℕ → List ℕ` for `th.randperm` (the oracle at `n` stands for
  the permutation of `{0, ..., n-1}` that the generator produced).
-/

set_option autoImplicit false

/-- A rank-3 tensor: channels, then rows, then columns of rationals. -/
abbrev T3 : Type := List (List (List ℚ))

/-- Python exceptions raised by the transforms. -/
inductive Err where
  | zeroDiv
  | indexOutOfRange
  | attributeError
  | valueError
  | nameError
  | missingArg
  deriving DecidableEq, Repr

/-- The value a transform call returns: either a bare tensor
(`return x`) or a tuple (`return x, y` where the second slot may be
the Python value None). -/
inductive PyOut where
  | tensor (t : T3)
  | tuple (t : T3) (u : Option T3)
  deriving DecidableEq, Repr

deriving instance DecidableEq for Except

/-- x.size(0): number of channels. -/
def size0 (t : T3) : ℕ := t.length

/-- x.size(1): number of rows (of the first channel). -/
def size1 (t : T3) : ℕ := t.headI.length

/-- x.size(2): number of columns (of the first row of the first channel). -/
def size2 (t : T3) : ℕ := t.headI.headI.length

/-- The triple of sizes of a (rectangular) rank-3 tensor. -/
def shape3 (t : T3) : ℕ × ℕ × ℕ := (size0 t, size1 t, size2 t)

/-- Element-wise map over a rank-3 tensor. -/
def tmap3 (f : ℚ → ℚ) (t : T3) : T3 :=
  t.map (fun c => c.map (fun r => r.map f))

/-- All elements of a rank-3 tensor, flattened. -/
def flat3 (t : T3) : List ℚ :=
  (t.map (fun c => c.foldr (fun r a => r ++ a) [])).foldr (fun c a => c ++ a) []

/-- th.min over a tensor (the result on an empty tensor is irrelevant:
torch rejects empty reductions, and no claim evaluates one). -/
def tmin3 (t : T3) : ℚ :=
  match flat3 t with
  | [] => 0
  | a :: as => as.foldl min a

/-- th.max over a tensor. -/
def tmax3 (t : T3) : ℚ :=
  match flat3 t with
  | [] => 0
  | a :: as => as.foldl max a

/-! ## RangeNormalize -/

/-- The epsilon the source injects: `min_val += 1e-07`. -/
def rnEps : ℚ := 1 / 10000000

/-- The (min_val, max_val) pair RangeNormalize.__call__ computes for
the x stream: fixed value when configured, otherwise the observed
statistic, with `min_val += 1e-07` when the two coincide. -/
def rnMinMaxX (fm fM : Option ℚ) (x : T3) : ℚ × ℚ :=
  (if fm.getD (tmin3 x) = fM.getD (tmax3 x)
     then fm.getD (tmin3 x) + rnEps
     else fm.getD (tmin3 x),
   fM.getD (tmax3 x))

/-- The affine step of RangeNormalize:
`a = (max_range - min_range)/(max_val - min_val); b = max_range - a*max_val;`
`t.mul(a).add(b)`. -/
def affineMap (mR MR minV maxV : ℚ) (t : T3) : T3 :=
  tmap3 (fun v => v * ((MR - mR) / (maxV - minV)) + (MR - ((MR - mR) / (maxV - minV)) * maxV)) t

/-- RangeNormalize.__call__.  The Python division raises
ZeroDivisionError exactly when the denominator max_val - min_val is
zero; that raise is modelled by the guards.  Faithful to the source:
the epsilon adjustment and the fixed min/max are applied on the x
stream only; the y stream always uses its own raw observed min/max. -/
def RangeNormalize.call (mR MR : ℚ) (fm fM : Option ℚ) (x : T3) (y : Option T3) :
    Except Err PyOut :=
  if (rnMinMaxX fm fM x).2 - (rnMinMaxX fm fM x).1 = 0 then .error .zeroDiv
  else
    let xN := affineMap mR MR (rnMinMaxX fm fM x).1 (rnMinMaxX fm fM x).2 x
    match y with
    | none => .ok (.tensor xN)
    | some yv =>
      if tmax3 yv - tmin3 yv = 0 then .error .zeroDiv
      else .ok (.tuple xN (some (affineMap mR MR (tmin3 yv) (tmax3 yv) yv)))

/-- The normalized x stream (the value RangeNormalize computes for x). -/
def rnXNorm (mR MR : ℚ) (fm fM : Option ℚ) (x : T3) : T3 :=
  affineMap mR MR (rnMinMaxX fm fM x).1 (rnMinMaxX fm fM x).2 x

/-- The normalized y stream: an affine map built from y's own observed
min/max only. -/
def rnYNorm (mR MR : ℚ) (y : T3) : T3 :=
  affineMap mR MR (tmin3 y) (tmax3 y) y

/-- Claim-side variant of RangeNormalize, following the spec sentence
that each stream derives its affine transform from either the
configured fixed min/max (when configured) or that stream's own
observed min/max: here the y branch selects its statistics exactly as
the x branch does.  Used only to compare with the source behaviour. -/
def RangeNormalize.callClaimed (mR MR : ℚ) (fm fM : Option ℚ) (x : T3) (y : Option T3) :
    Except Err PyOut :=
  if (rnMinMaxX fm fM x).2 - (rnMinMaxX fm fM x).1 = 0 then .error .zeroDiv
  else
    let xN := affineMap mR MR (rnMinMaxX fm fM x).1 (rnMinMaxX fm fM x).2 x
    match y with
    | none => .ok (.tensor xN)
    | some yv =>
      if (rnMinMaxX fm fM yv).2 - (rnMinMaxX fm fM yv).1 = 0 then .error .zeroDiv
      else .ok (.tuple xN (some (affineMap mR MR (rnMinMaxX fm fM yv).1 (rnMinMaxX fm fM yv).2 yv)))

lemma rnEps_ne_zero : rnEps ≠ 0 := by norm_num [rnEps]

/-- The x-stream denominator is never zero: the epsilon injection
rules out min_val = max_val. -/
lemma rn_x_denom_ne (fm fM : Option ℚ) (x : T3) :
    (rnMinMaxX fm fM x).2 - (rnMinMaxX fm fM x).1 ≠ 0 := by
  show fM.getD (tmax3 x) -
      (if fm.getD (tmin3 x) = fM.getD (tmax3 x)
        then fm.getD (tmin3 x) + rnEps else fm.getD (tmin3 x)) ≠ 0
  by_cases h : fm.getD (tmin3 x) = fM.getD (tmax3 x)
  · rw [if_pos h, h]
    intro hc
    exact rnEps_ne_zero (by linarith)
  · rw [if_neg h]
    exact sub_ne_zero_of_ne (fun e => h e.symm)

lemma rn_call_none (mR MR : ℚ) (fm fM : Option ℚ) (x : T3) :
    RangeNormalize.call mR MR fm fM x none = .ok (.tensor (rnXNorm mR MR fm fM x)) := by
  unfold RangeNormalize.call
  rw [if_neg (rn_x_denom_ne fm fM x)]
  rfl

lemma rn_call_some (mR MR : ℚ) (fm fM : Option ℚ) (x yv : T3)
    (hy : tmin3 yv ≠ tmax3 yv) :
    RangeNormalize.call mR MR fm fM x (some yv)
      = .ok (.tuple (rnXNorm mR MR fm fM x) (some (rnYNorm mR MR yv))) := by
  unfold RangeNormalize.call
  rw [if_neg (rn_x_denom_ne fm fM x)]
  have h2 : tmax3 yv - tmin3 yv ≠ 0 := sub_ne_zero_of_ne (fun e => hy e.symm)
  simp only [if_neg h2]
  rfl

lemma rn_call_some_deg (mR MR : ℚ) (fm fM : Option ℚ) (x yv : T3)
    (hy : tmin3 yv = tmax3 yv) :
    RangeNormalize.call mR MR fm fM x (some yv) = .error .zeroDiv := by
  unfold RangeNormalize.call
  rw [if_neg (rn_x_denom_ne fm fM x)]
  have h2 : tmax3 yv - tmin3 yv = 0 := by rw [hy, sub_self]
  simp only [if_pos h2]

/-- Claim C3 (corrected): the epsilon protection covers the x stream
only.  For every configuration the x-stream division succeeds (the
epsilon injection makes its denominator nonzero), but when the y
stream is constant (observed min equals observed max) the transform
fails with a division by zero: no epsilon is added on the y path. -/
theorem rangeNormalize_eps_c3 (mR MR : ℚ) (fm fM : Option ℚ) (x y : T3) :
    RangeNormalize.call mR MR fm fM x none = .ok (.tensor (rnXNorm mR MR fm fM x))
    ∧ (tmin3 y = tmax3 y →
        RangeNormalize.call mR MR fm fM x (some y) = .error .zeroDiv) :=
  ⟨rn_call_none mR MR fm fM x, fun hy => rn_call_some_deg mR MR fm fM x y hy⟩

/-- Claim C3, witness: concrete instance of the theorem above. -/
theorem rangeNormalize_eps_c3_witness :
    RangeNormalize.call 0 1 none none [[[0, 1]]] none
      = .ok (.tensor (rnXNorm 0 1 none none [[[0, 1]]]))
    ∧ RangeNormalize.call 0 1 none none [[[0, 1]]] (some [[[5, 5]]])
      = .error .zeroDiv :=
  ⟨(rangeNormalize_eps_c3 0 1 none none [[[0, 1]]] [[[5, 5]]]).1,
   (rangeNormalize_eps_c3 0 1 none none [[[0, 1]]] [[[5, 5]]]).2
     (by norm_num [tmin3, tmax3, flat3])⟩

/-- Claim C3, counterexample to the claim as stated: a constant-valued
y stream makes RangeNormalize fail with a division by zero, so it is
not the case that every stream receives the epsilon protection. -/
theorem rangeNormalize_c3_counterexample :
    RangeNormalize.call 0 1 none none [[[0, 1]]] (some [[[5, 5]]])
      = .error .zeroDiv := by
  norm_num [RangeNormalize.call, rnMinMaxX, tmin3, tmax3, flat3, rnEps, min_def, max_def]

/-- Claim C4 (corrected): the two streams never share statistics — the
y output is a function of (min_range, max_range, y) alone and is
unchanged under any choice of fixed min/max and any x, and the x
output equals the one-stream output on x — but the configured fixed
min/max apply to the x stream only: the y stream always uses its own
observed min/max. -/
theorem rangeNormalize_independence_c4 (mR MR : ℚ) (fm fM fm2 fM2 : Option ℚ)
    (x x2 y : T3) (hy : tmin3 y ≠ tmax3 y) :
    RangeNormalize.call mR MR fm fM x (some y)
      = .ok (.tuple (rnXNorm mR MR fm fM x) (some (rnYNorm mR MR y)))
    ∧ RangeNormalize.call mR MR fm2 fM2 x2 (some y)
      = .ok (.tuple (rnXNorm mR MR fm2 fM2 x2) (some (rnYNorm mR MR y)))
    ∧ RangeNormalize.call mR MR fm fM x none
      = .ok (.tensor (rnXNorm mR MR fm fM x)) :=
  ⟨rn_call_some mR MR fm fM x y hy,
   rn_call_some mR MR fm2 fM2 x2 y hy,
   rn_call_none mR MR fm fM x⟩

/-- Claim C4, witness: concrete instance of the theorem above. -/
theorem rangeNormalize_independence_c4_witness :
    RangeNormalize.call 0 1 none none [[[0, 2]]] (some [[[0, 1]]])
      = .ok (.tuple (rnXNorm 0 1 none none [[[0, 2]]]) (some (rnYNorm 0 1 [[[0, 1]]])))
    ∧ RangeNormalize.call 0 1 (some 0) (some 255) [[[1, 3]]] (some [[[0, 1]]])
      = .ok (.tuple (rnXNorm 0 1 (some 0) (some 255) [[[1, 3]]]) (some (rnYNorm 0 1 [[[0, 1]]])))
    ∧ RangeNormalize.call 0 1 none none [[[0, 2]]] none
      = .ok (.tensor (rnXNorm 0 1 none none [[[0, 2]]])) :=
  rangeNormalize_independence_c4 0 1 none none (some 0) (some 255)
    [[[0, 2]]] [[[1, 3]]] [[[0, 1]]]
    (by norm_num [tmin3, tmax3, flat3, min_def, max_def])

/-- Claim C4, counterexample to the claim as stated: with fixed_min=0
and fixed_max=255 configured, the source normalizes y with y's
observed min/max, not with the configured fixed values, so it differs
from the claim-side variant that applies the fixed values to y. -/
theorem rangeNormalize_c4_counterexample :
    RangeNormalize.call 0 1 (some 0) (some 255) [[[0, 2]]] (some [[[0, 1]]])
      ≠ RangeNormalize.callClaimed 0 1 (some 0) (some 255) [[[0, 2]]] (some [[[0, 1]]]) := by
  norm_num [RangeNormalize.call, RangeNormalize.callClaimed, rnMinMaxX, affineMap,
    tmap3, tmin3, tmax3, flat3, rnEps, min_def, max_def]

/-! ## RandomCrop -/

/-- random.randint(lo, hi): uniform integer draw over the inclusive
range [lo, hi]; raises ValueError when hi < lo.  The global random
source is modelled by a stream of raw natural draws: one draw is
consumed and reduced into the range, so every value of [lo, hi] is a
possible outcome. -/
def randintE (lo hi : ℤ) (rng : List ℕ) : Except Err (ℤ × List ℕ) :=
  if hi < lo then .error .valueError
  else .ok (lo + (rng.headI : ℤ) % (hi - lo + 1), rng.tail)

/-- The slice x[:, h:(h+c0), w:(w+c1)]. -/
def crop3 (t : T3) (h c0 w c1 : ℕ) : T3 :=
  t.map (fun ch => ((ch.drop h).take c0).map (fun r => (r.drop w).take c1))

/-- RandomCrop.__call__:
`h_idx = random.randint(0, x.size(1)-crop_size[0])`,
`w_idx = random.randint(0, x.size(2)-crop_size[1])`, then both x and y
are sliced as `[:, h_idx:h_idx+cs0, w_idx:w_idx+cs1]`. -/
def RandomCrop.call (c0 c1 : ℕ) (rng : List ℕ) (x : T3) (y : Option T3) :
    Except Err (PyOut × List ℕ) :=
  match randintE 0 ((size1 x : ℤ) - c0) rng with
  | .error e => .error e
  | .ok (h, rng1) =>
    match randintE 0 ((size2 x : ℤ) - c1) rng1 with
    | .error e => .error e
    | .ok (w, rng2) =>
      let xc := crop3 x h.toNat c0 w.toNat c1
      match y with
      | none => .ok (.tensor xc, rng2)
      | some yv => .ok (.tuple xc (some (crop3 yv h.toNat c0 w.toNat c1)), rng2)

lemma randintE_eval (s c : ℕ) (hc : c ≤ s) (rng : List ℕ) :
    randintE 0 ((s : ℤ) - c) rng
      = .ok (((rng.headI % (s - c + 1) : ℕ) : ℤ), rng.tail) := by
  unfold randintE
  rw [if_neg (by omega)]
  have e1 : (s : ℤ) - (c : ℤ) - 0 + 1 = ((s - c + 1 : ℕ) : ℤ) := by
    push_cast [Nat.cast_sub hc]
    ring
  rw [zero_add, e1]
  congr 1

lemma toNat_mod_succ (r n : ℕ) :
    ((r : ℤ) % ((n : ℤ) + 1)).toNat = r % (n + 1) := by
  have e : ((n : ℤ) + 1) = ((n + 1 : ℕ) : ℤ) := by push_cast; ring
  rw [e, ← Int.natCast_mod, Int.toNat_natCast]

/-- Claim C7: when the spatial dimensions of x are at least the crop
size, exactly two draws are consumed per invocation (one offset per
spatial axis, none per stream); each offset lies in the inclusive
range [0, dimension_size - crop_size]; both x and y are sliced at the
same pair of offsets; and every offset pair in range is a possible
outcome of the draw. -/
theorem randomCrop_single_draw_c7 (c0 c1 : ℕ) (rng : List ℕ) (x y : T3)
    (h1 : c0 ≤ size1 x) (h2 : c1 ≤ size2 x) :
    (rng.headI % (size1 x - c0 + 1) ≤ size1 x - c0
     ∧ rng.tail.headI % (size2 x - c1 + 1) ≤ size2 x - c1
     ∧ RandomCrop.call c0 c1 rng x (some y)
        = .ok (.tuple
            (crop3 x (rng.headI % (size1 x - c0 + 1)) c0
              (rng.tail.headI % (size2 x - c1 + 1)) c1)
            (some (crop3 y (rng.headI % (size1 x - c0 + 1)) c0
              (rng.tail.headI % (size2 x - c1 + 1)) c1)),
           rng.tail.tail))
    ∧ (∀ v u : ℕ, v ≤ size1 x - c0 → u ≤ size2 x - c1 →
        RandomCrop.call c0 c1 (v :: u :: rng) x (some y)
          = .ok (.tuple (crop3 x v c0 u c1) (some (crop3 y v c0 u c1)), rng)) := by
  constructor
  · refine ⟨Nat.lt_succ_iff.mp (Nat.mod_lt _ (Nat.succ_pos _)),
      Nat.lt_succ_iff.mp (Nat.mod_lt _ (Nat.succ_pos _)), ?_⟩
    simp [RandomCrop.call, randintE_eval (size1 x) c0 h1 rng,
      randintE_eval (size2 x) c1 h2 rng.tail, toNat_mod_succ]
  · intro v u hv hu
    have hv2 : v % (size1 x - c0 + 1) = v := Nat.mod_eq_of_lt (by omega)
    have hu2 : u % (size2 x - c1 + 1) = u := Nat.mod_eq_of_lt (by omega)
    simp [RandomCrop.call, randintE_eval (size1 x) c0 h1 (v :: u :: rng),
      randintE_eval (size2 x) c1 h2 (u :: rng), toNat_mod_succ, hv2, hu2]

/-- Claim C7, witness: concrete instance of the theorem above with
draws 1 and 1 on a 3x3 single-channel pair. -/
theorem randomCrop_single_draw_c7_witness :
    RandomCrop.call 2 2 (1 :: 1 :: []) [[[1, 2, 3], [4, 5, 6], [7, 8, 9]]]
        (some [[[10, 20, 30], [40, 50, 60], [70, 80, 90]]])
      = .ok (.tuple (crop3 [[[1, 2, 3], [4, 5, 6], [7, 8, 9]]] 1 2 1 2)
          (some (crop3 [[[10, 20, 30], [40, 50, 60], [70, 80, 90]]] 1 2 1 2)), []) :=
  (randomCrop_single_draw_c7 2 2 [] [[[1, 2, 3], [4, 5, 6], [7, 8, 9]]]
      [[[10, 20, 30], [40, 50, 60], [70, 80, 90]]]
      (by decide) (by decide)).2 1 1 (by decide) (by decide)

/-! ## SpecialCrop -/

/-- The index ranges SpecialCrop.__call__ computes from
x.size(1), x.size(2) and the crop size, per crop_type:
0 = center (`x_diff = (x.size(1)-crop_size[0])/2.` with
`[ceil(x_diff), x.size(1)-floor(x_diff)]`), 1..4 = the corners.
A crop_type outside 0..4 leaves `indices` unbound in the source
(None result here, a NameError at the use site). -/
def specialCropIndices (s1 s2 c0 c1 ct : ℕ) : Option ((ℤ × ℤ) × (ℤ × ℤ)) :=
  if ct = 0 then
    some ((⌈((s1 : ℚ) - (c0 : ℚ))/2⌉, (s1 : ℤ) - ⌊((s1 : ℚ) - (c0 : ℚ))/2⌋),
          (⌈((s2 : ℚ) - (c1 : ℚ))/2⌉, (s2 : ℤ) - ⌊((s2 : ℚ) - (c1 : ℚ))/2⌋))
  else if ct = 1 then some (((0 : ℤ), (c0 : ℤ)), ((0 : ℤ), (c1 : ℤ)))
  else if ct = 2 then some (((0 : ℤ), (c0 : ℤ)), ((s2 : ℤ) - (c1 : ℤ), (s2 : ℤ)))
  else if ct = 3 then
    some (((s1 : ℤ) - (c0 : ℤ), (s1 : ℤ)), ((s2 : ℤ) - (c1 : ℤ), (s2 : ℤ)))
  else if ct = 4 then some (((s1 : ℤ) - (c0 : ℤ), (s1 : ℤ)), ((0 : ℤ), (c1 : ℤ)))
  else none

/-- The Python slice l[a:b] for nonnegative bounds (negative wrap-around
indices are never produced by valid crop configurations). -/
def slice1 {α : Type} (l : List α) (ab : ℤ × ℤ) : List α :=
  (l.drop ab.1.toNat).take (ab.2 - ab.1).toNat

/-- The slice x[:, a:b, c:d] applied with one computed index pair. -/
def sliceIdx (t : T3) (ix : (ℤ × ℤ) × (ℤ × ℤ)) : T3 :=
  t.map (fun ch => (slice1 ch ix.1).map (fun r => slice1 r ix.2))

/-- SpecialCrop.__call__: the indices are computed once from x's sizes
and the same ranges are applied to x and to y. -/
def SpecialCrop.call (c0 c1 ct : ℕ) (x : T3) (y : Option T3) : Except Err PyOut :=
  match specialCropIndices (size1 x) (size2 x) c0 c1 ct with
  | none => .error .nameError
  | some ix =>
    match y with
    | none => .ok (.tensor (sliceIdx x ix))
    | some yv => .ok (.tuple (sliceIdx x ix) (some (sliceIdx yv ix)))

/-- The computed indices with the (never-used) default. -/
def ixD (s1 s2 c0 c1 ct : ℕ) : (ℤ × ℤ) × (ℤ × ℤ) :=
  (specialCropIndices s1 s2 c0 c1 ct).getD ((0, 0), (0, 0))

lemma floor_add_ceil_half (n : ℤ) : ⌊(n : ℚ)/2⌋ + ⌈(n : ℚ)/2⌉ = n := by
  rcases Int.even_or_odd n with ⟨k, hk⟩ | ⟨k, hk⟩
  · subst hk
    have h : ((k + k : ℤ) : ℚ)/2 = (k : ℚ) := by push_cast; ring
    rw [h, Int.floor_intCast, Int.ceil_intCast]
  · subst hk
    have h : ((2*k + 1 : ℤ) : ℚ)/2 = (k : ℚ) + 1/2 := by push_cast; ring
    have hf : ⌊(k : ℚ) + 1/2⌋ = k := by
      rw [add_comm, Int.floor_add_int]
      norm_num
    have hc : ⌈(k : ℚ) + 1/2⌉ = k + 1 := by
      rw [add_comm, Int.ceil_add_int]
      have h12 : ⌈(1/2 : ℚ)⌉ = 1 := by
        rw [Int.ceil_eq_iff]
        norm_num
      omega
    rw [h, hf, hc]
    ring

/-- Claim C8: center crop of crop size (4,4) on spatial size (10,10)
computes the index ranges [3:7, 3:7]; for every crop type in 0..4 the
index ranges are computed once from x's sizes and applied identically
to x and y; and the ceiling/floor split of (dimension - crop)/2 makes
the center range have exactly the crop length. -/
theorem specialCrop_center_c8 :
    specialCropIndices 10 10 4 4 0 = some ((3, 7), (3, 7))
    ∧ (∀ (c0 c1 ct : ℕ) (x y : T3), ct < 5 →
        SpecialCrop.call c0 c1 ct x (some y)
          = .ok (.tuple (sliceIdx x (ixD (size1 x) (size2 x) c0 c1 ct))
              (some (sliceIdx y (ixD (size1 x) (size2 x) c0 c1 ct)))))
    ∧ (∀ s c : ℕ,
        (ixD s s c c 0).1.2 - (ixD s s c c 0).1.1 = (c : ℤ)) := by
  refine ⟨?_, ?_, ?_⟩
  · norm_num [specialCropIndices]
  · intro c0 c1 ct x y hct
    interval_cases ct <;> simp [SpecialCrop.call, specialCropIndices, ixD]
  · intro s c
    have hd : ((s : ℚ) - (c : ℚ))/2 = ((((s : ℤ) - (c : ℤ)) : ℤ) : ℚ)/2 := by
      push_cast
      ring
    have hfc := floor_add_ceil_half ((s : ℤ) - (c : ℤ))
    rw [← hd] at hfc
    simp [ixD, specialCropIndices]
    omega

/-- Claim C8, witness: concrete instance of the shared-index-range
part of the theorem above. -/
theorem specialCrop_center_c8_witness :
    SpecialCrop.call 1 1 0 [[[1], [2]]] (some [[[3], [4]]])
      = .ok (.tuple
          (sliceIdx [[[1], [2]]] (ixD (size1 [[[1], [2]]]) (size2 [[[1], [2]]]) 1 1 0))
          (some (sliceIdx [[[3], [4]]]
            (ixD (size1 [[[1], [2]]]) (size2 [[[1], [2]]]) 1 1 0)))) :=
  specialCrop_center_c8.2.1 1 1 0 [[[1], [2]]] [[[3], [4]]] (by decide)

/-! ## Pad -/

/-- One np.pad axis step: prepend a copies and append b copies of the
constant element z. -/
def pad1 {α : Type} (a b : ℕ) (z : α) (l : List α) : List α :=
  List.replicate a z ++ l ++ List.replicate b z

/-- np.pad with mode=constant on a rank-3 (rectangular) tensor. -/
def pad3 (p0 p1 p2 : ℕ × ℕ) (t : T3) : T3 :=
  pad1 p0.1 p0.2
    (List.replicate (p1.1 + size1 t + p1.2)
      (List.replicate (p2.1 + size2 t + p2.2) (0 : ℚ)))
    (t.map (fun c =>
      pad1 p1.1 p1.2 (List.replicate (p2.1 + size2 t + p2.2) (0 : ℚ))
        (c.map (fun r => pad1 p2.1 p2.2 (0 : ℚ) r))))

/-- One pad-size pair `(int(np.ceil(s/2.)), int(np.floor(s/2.)))`. -/
def padPair (d : ℕ) : ℕ × ℕ := ((d + 1)/2, d/2)

/-- Pad.__call__: `shape_diffs = [ceil(i_s - d_s) for d_s, i_s in
zip(x.shape, self.size)]` clamped by `np.maximum(shape_diffs, 0)`
(the natural subtraction models the clamp), then the ceil/floor halves
and np.pad on x, with the same pad sizes reused for y.  np.pad raises
when the pad-width list is shorter than the rank. -/
def Pad.call (sz : List ℕ) (x : T3) (y : Option T3) : Except Err PyOut :=
  match (([size0 x, size1 x, size2 x]).zip sz).map (fun p => padPair (p.2 - p.1)) with
  | [p0, p1, p2] =>
    let xP := pad3 p0 p1 p2 x
    match y with
    | none => .ok (.tensor xP)
    | some yv => .ok (.tuple xP (some (pad3 p0 p1 p2 yv)))
  | _ => .error .valueError

/-- The pad sizes as a function of the target size and x's shape only. -/
def padOf (sz : List ℕ) (x : T3) : (ℕ × ℕ) × (ℕ × ℕ) × (ℕ × ℕ) :=
  (padPair (sz.headI - size0 x),
   padPair (sz.tail.headI - size1 x),
   padPair (sz.tail.tail.headI - size2 x))

lemma pad1_length {α : Type} (a b : ℕ) (z : α) (l : List α) :
    (pad1 a b z l).length = a + l.length + b := by
  simp [pad1]
  omega

lemma headI_replicate_ne_zero {α : Type} [Inhabited α] (n : ℕ) (z : α)
    (hn : n ≠ 0) : (List.replicate n z).headI = z := by
  cases n with
  | zero => exact absurd rfl hn
  | succ m => simp [List.replicate_succ]

lemma pad3_shape (p0 p1 p2 : ℕ × ℕ) (x : T3) (hx : x ≠ []) (hc : x.headI ≠ []) :
    shape3 (pad3 p0 p1 p2 x)
      = (p0.1 + size0 x + p0.2, p1.1 + size1 x + p1.2, p2.1 + size2 x + p2.2) := by
  obtain ⟨x0, xs, rfl⟩ : ∃ x0 xs, x = x0 :: xs := by
    cases x with
    | nil => exact absurd rfl hx
    | cons x0 xs => exact ⟨x0, xs, rfl⟩
  obtain ⟨r0, rs, hr⟩ : ∃ r0 rs, x0 = r0 :: rs := by
    cases x0 with
    | nil => simp at hc
    | cons r0 rs => exact ⟨r0, rs, rfl⟩
  subst hr
  refine Prod.ext ?_ (Prod.ext ?_ ?_)
  · show (pad3 p0 p1 p2 _).length = _
    simp [pad3, pad1_length, size0]
  · show (pad3 p0 p1 p2 _).headI.length = _
    rcases Nat.eq_zero_or_pos p0.1 with h0 | h0
    · simp [pad3, pad1, h0, pad1_length, size1]
      omega
    · obtain ⟨m, hm⟩ := Nat.exists_eq_succ_of_ne_zero (Nat.pos_iff_ne_zero.mp h0)
      simp [pad3, pad1, hm, List.replicate_succ, size1]
  · show (pad3 p0 p1 p2 _).headI.headI.length = _
    rcases Nat.eq_zero_or_pos p0.1 with h0 | h0
    · rcases Nat.eq_zero_or_pos p1.1 with h1 | h1
      · simp [pad3, pad1, h0, h1, pad1_length, size2]
        omega
      · obtain ⟨m, hm⟩ := Nat.exists_eq_succ_of_ne_zero (Nat.pos_iff_ne_zero.mp h1)
        simp [pad3, pad1, h0, hm, List.replicate_succ, size2]
    · obtain ⟨m, hm⟩ := Nat.exists_eq_succ_of_ne_zero (Nat.pos_iff_ne_zero.mp h0)
      have e : p1.1 + size1 ((r0 :: rs) :: xs) + p1.2
          = (p1.1 + rs.length + p1.2) + 1 := by
        simp [size1]
        omega
      simp [pad3, pad1, hm, e, List.replicate_succ, size2]

/-- The shape of the (first) tensor a call returned, if any. -/
def outShape (r : Except Err PyOut) : Option (ℕ × ℕ × ℕ) :=
  match r with
  | .ok (.tensor t) => some (shape3 t)
  | .ok (.tuple t _) => some (shape3 t)
  | .error _ => none

/-- Claim C9: Pad computes one pad-size pair per dimension from x's
shape alone — the ceiling half before, the floor half after, of the
max-with-zero-clamped difference target - dimension — reuses those pad
sizes unchanged for y, and the padded x has shape
max(shape, target) per dimension (so dimensions at or above target are
left unpadded); in particular padding shape (3,5,5) to target (3,8,8)
yields shape (3,8,8). -/
theorem pad_c9 :
    (∀ (sz : List ℕ) (x y : T3), 3 ≤ sz.length → x ≠ [] → x.headI ≠ [] →
      Pad.call sz x (some y)
        = .ok (.tuple (pad3 (padOf sz x).1 (padOf sz x).2.1 (padOf sz x).2.2 x)
            (some (pad3 (padOf sz x).1 (padOf sz x).2.1 (padOf sz x).2.2 y)))
      ∧ shape3 (pad3 (padOf sz x).1 (padOf sz x).2.1 (padOf sz x).2.2 x)
        = (max (size0 x) sz.headI, max (size1 x) sz.tail.headI,
           max (size2 x) sz.tail.tail.headI))
    ∧ outShape (Pad.call [3, 8, 8]
        (List.replicate 3 (List.replicate 5 (List.replicate 5 (1 : ℚ)))) none)
      = some (3, 8, 8) := by
  constructor
  · intro sz x y hlen hx hc
    obtain ⟨a, b, c, rest, rfl⟩ : ∃ a b c rest, sz = a :: b :: c :: rest := by
      rcases sz with _ | ⟨a, _ | ⟨b, _ | ⟨c, rest⟩⟩⟩
      · simp at hlen
      · simp at hlen
      · simp at hlen
      · exact ⟨a, b, c, rest, rfl⟩
    constructor
    · simp [Pad.call, padOf]
    · rw [pad3_shape _ _ _ x hx hc]
      simp only [padOf, padPair, List.headI, List.tail_cons, Prod.ext_iff]
      refine ⟨?_, ?_, ?_⟩ <;> omega
  · rfl

/-- Claim C9, witness: applying the theorem at a concrete
(2,1,1)-shaped pair with target size [2,3,3]. -/
theorem pad_c9_witness :
    Pad.call [2, 3, 3] [[[1]], [[2]]] (some [[[7]], [[8]]])
      = .ok (.tuple
          (pad3 (padOf [2, 3, 3] [[[1]], [[2]]]).1
            (padOf [2, 3, 3] [[[1]], [[2]]]).2.1
            (padOf [2, 3, 3] [[[1]], [[2]]]).2.2 [[[1]], [[2]]])
          (some (pad3 (padOf [2, 3, 3] [[[1]], [[2]]]).1
            (padOf [2, 3, 3] [[[1]], [[2]]]).2.1
            (padOf [2, 3, 3] [[[1]], [[2]]]).2.2 [[[7]], [[8]]])))
    ∧ shape3 (pad3 (padOf [2, 3, 3] [[[1]], [[2]]]).1
        (padOf [2, 3, 3] [[[1]], [[2]]]).2.1
        (padOf [2, 3, 3] [[[1]], [[2]]]).2.2 [[[1]], [[2]]])
      = (max (size0 [[[1]], [[2]]]) (List.headI [2, 3, 3]),
         max (size1 [[[1]], [[2]]]) (List.headI (List.tail [2, 3, 3])),
         max (size2 [[[1]], [[2]]]) (List.headI (List.tail (List.tail [2, 3, 3])))) :=
  pad_c9.1 [2, 3, 3] [[[1]], [[2]]] [[[7]], [[8]]]
    (by decide) (by decide) (by decide)

/-! ## TypeCast -/

/-- The torch tensor element types. -/
inductive TorchT where
  | byte
  | char
  | double
  | float
  | half
  | int
  | long
  | short
  deriving DecidableEq, Repr

/-- Attribute lookup on the torch module (collaborator): the
tensor-type attributes that exist.  `th.Intensor` is not one of them
(the existing attribute is `th.IntTensor`), so looking it up raises
AttributeError. -/
def thTensorAttr (s : String) : Option TorchT :=
  if s = "ByteTensor" then some .byte
  else if s = "CharTensor" then some .char
  else if s = "DoubleTensor" then some .double
  else if s = "FloatTensor" then some .float
  else if s = "HalfTensor" then some .half
  else if s = "IntTensor" then some .int
  else if s = "LongTensor" then some .long
  else if s = "ShortTensor" then some .short
  else none

/-- The value stored in `self.dtype`: either a resolved tensor type or
an unrecognized string stored unchanged. -/
inductive TCDtype where
  | tt (t : TorchT)
  | raw (s : String)
  deriving DecidableEq, Repr

/-- An attribute access `th.<s>`: AttributeError if absent. -/
def attrOrErr (s : String) : Except Err TCDtype :=
  match thTensorAttr s with
  | some t => .ok (.tt t)
  | none => .error .attributeError

/-- TypeCast.__init__: the string-tag dispatch of the source, branch
by branch; the `int` branch reads `th.Intensor`.  A string matching no
branch is stored unchanged. -/
def TypeCast.init (dtype : String) : Except Err TCDtype :=
  if dtype = "byte" then attrOrErr "ByteTensor"
  else if dtype = "double" then attrOrErr "DoubleTensor"
  else if dtype = "float" then attrOrErr "FloatTensor"
  else if dtype = "int" then attrOrErr "Intensor"
  else if dtype = "long" then attrOrErr "LongTensor"
  else if dtype = "short" then attrOrErr "ShortTensor"
  else .ok (.raw dtype)

/-- x.type(string) resolves a fully-qualified tensor type name
(collaborator behaviour of the tensor cast method in old torch); any
other string raises. -/
def parseTypeName (s : String) : Option TorchT :=
  if s = "torch.ByteTensor" then some .byte
  else if s = "torch.CharTensor" then some .char
  else if s = "torch.DoubleTensor" then some .double
  else if s = "torch.FloatTensor" then some .float
  else if s = "torch.HalfTensor" then some .half
  else if s = "torch.IntTensor" then some .int
  else if s = "torch.LongTensor" then some .long
  else if s = "torch.ShortTensor" then some .short
  else none

/-- Element cast: the floating types keep the (exact rational) value;
the integer types truncate toward zero.  Storage width and float
rounding are collaborator details outside the claims. -/
def castVal (t : TorchT) (q : ℚ) : ℚ :=
  match t with
  | .float => q
  | .double => q
  | .half => q
  | _ => (((if 0 ≤ q then ⌊q⌋ else ⌈q⌉) : ℤ) : ℚ)

/-- TypeCast.__call__: `x = x.type(self.dtype)` and the same for y. -/
def TypeCast.call (d : TCDtype) (x : T3) (y : Option T3) : Except Err PyOut :=
  match (match d with | .tt t => some t | .raw s => parseTypeName s) with
  | none => .error .valueError
  | some t =>
    match y with
    | none => .ok (.tensor (tmap3 (castVal t) x))
    | some yv => .ok (.tuple (tmap3 (castVal t) x) (some (tmap3 (castVal t) yv)))

/-- Claim C10: constructing TypeCast with the tag int fails at
construction time with an AttributeError (th.Intensor does not exist);
any string matching none of the six branches is stored unchanged at
construction, and applying the transform with such a stored string
that is not a fully-qualified tensor type name fails only then. -/
theorem typeCast_int_c10 :
    TypeCast.init "int" = .error .attributeError
    ∧ (∀ s : String,
        ¬ s ∈ (["byte", "double", "float", "int", "long", "short"] : List String) →
        TypeCast.init s = .ok (.raw s))
    ∧ (∀ (s : String) (x : T3), parseTypeName s = none →
        TypeCast.call (.raw s) x none = .error .valueError) := by
  refine ⟨rfl, ?_, ?_⟩
  · intro s hs
    simp at hs
    obtain ⟨h1, h2, h3, h4, h5, h6⟩ := hs
    simp [TypeCast.init, h1, h2, h3, h4, h5, h6]
  · intro s x hp
    simp [TypeCast.call, hp]

/-- Claim C10, witness: the tag half is stored unchanged at
construction and fails at application. -/
theorem typeCast_int_c10_witness :
    TypeCast.init "int" = .error .attributeError
    ∧ TypeCast.init "half" = .ok (.raw "half")
    ∧ TypeCast.call (.raw "half") [[[1]]] none = .error .valueError :=
  ⟨typeCast_int_c10.1,
   typeCast_int_c10.2.1 "half" (by decide),
   typeCast_int_c10.2.2 "half" [[[1]]] (by decide)⟩

/-! ## Compose -/

/-- Compose.__call__ in two-stream mode (y is not None): the loop
`for t in self.transforms: x, y = t(x, y)` threaded over the list,
then `return x, y`.  Each unit is its two-stream application
`T3 → T3 → T3 × T3`. -/
def Compose.call2 (ts : List (T3 → T3 → T3 × T3)) (x y : T3) : T3 × T3 :=
  ts.foldl (fun p t => t p.1 p.2) (x, y)

/-- Compose.__call__ in one-stream mode (y is None): the loop
`for t in self.transforms: x = t(x)`, then `return x`. -/
def Compose.call1 (ts : List (T3 → T3)) (x : T3) : T3 :=
  ts.foldl (fun a t => t a) x

/-! ## RandomOrder and ToCuda -/

/-- x.dim(): the rank of the tensor.  In this embedding the rank is
fixed at 3 by the type T3, so x.dim() always returns 3. -/
def dim3 (_ : T3) : ℕ := 3

/-- x.index_select(0, order): reindex along the leading axis with the
given index list; torch raises an out-of-range error when an index is
not smaller than x.size(0). -/
def indexSelect0 (t : T3) (idx : List ℕ) : Except Err T3 :=
  if idx.all (fun i => i < t.length) then
    .ok (idx.map (fun i => t.getD i []))
  else .error .indexOutOfRange

/-- RandomOrder.__call__:
`order = th.randperm(x.dim()); x = x.index_select(0, order);`
`if y is not None: y = y.index_select(0, order); return x, y`.
The draw `th.randperm(n)` is modelled by the oracle `perm n`.  Note
(faithful to the source): the permutation size is x.dim(), not
x.size(0), and the final statement returns a 2-tuple unconditionally,
even when y is None. -/
def RandomOrder.call (perm : ℕ → List ℕ) (x : T3) (y : Option T3) :
    Except Err PyOut :=
  let order := perm (dim3 x)
  match indexSelect0 x order with
  | .error e => .error e
  | .ok x2 =>
    match y with
    | none => .ok (.tuple x2 none)
    | some yv =>
      match indexSelect0 yv order with
      | .error e => .error e
      | .ok y2 => .ok (.tuple x2 (some y2))

/-- ToCuda.__call__(self, x, y) invoked with both arguments; the cuda
device transfer is a collaborator and is modelled as the identity on
values. -/
def ToCuda.call (x : T3) (y : Option T3) : PyOut :=
  match y with
  | some yv => .tuple x (some yv)
  | none => .tensor x

/-- One-stream invocation `t(x)` of ToCuda: the parameter y has no
default in `def __call__(self, x, y)`, so Python raises a TypeError
(missing required positional argument) before the body runs. -/
def ToCuda.call1 (_ : T3) : Except Err PyOut := .error .missingArg

/-- A permutation oracle whose draw at every n is the identity
permutation of {0, ..., n-1} (one legitimate outcome of
th.randperm(n)). -/
def permIdOracle : ℕ → List ℕ := fun n => List.range n

/-- A permutation oracle whose draw at 3 is the cyclic permutation
[2, 0, 1] (one legitimate outcome of th.randperm(3)). -/
def permCycOracle : ℕ → List ℕ :=
  fun n => match n with
  | 3 => [2, 0, 1]
  | _ => List.range n

/-- Claim C1 (code bug): in one-stream mode a transform invocation is
not always a single tensor: RandomOrder on a 3-channel x with y absent
returns the 2-tuple (x, None) instead of a bare tensor, and ToCuda
invoked with one argument raises a TypeError because its y parameter
has no default. -/
theorem randomOrder_toCuda_onestream_c1 :
    RandomOrder.call permIdOracle [[[1]], [[2]], [[3]]] none
      = .ok (.tuple [[[1]], [[2]], [[3]]] none)
    ∧ ToCuda.call1 [[[1]]] = .error .missingArg := by
  constructor
  · rfl
  · rfl

/-- Claim C2 (code bug): RandomOrder draws th.randperm(x.dim()) — a
permutation of as many indices as the tensor has dimensions — not a
permutation of the leading-axis (channel) indices.  On a rank-3 tensor
with 2 channels the legitimate draw [2, 0, 1] of randperm(3) makes
index_select(0, order) fail with an out-of-range index. -/
theorem randomOrder_randperm_dim_c2 :
    (permCycOracle 3).Perm (List.range 3)
    ∧ RandomOrder.call permCycOracle [[[1]], [[2]]] none
        = .error .indexOutOfRange := by
  constructor
  · decide
  · rfl

/-- Claim C5: for every pair of transform units T1, T2 and every input
(x, y) with y present, the composer built from [T1, T2] equals T2
applied to the result of T1: each unit's output is fed as the next
unit's input, in list order. -/
theorem compose_chain_c5 (t1 t2 : T3 → T3 → T3 × T3) (x y : T3) :
    Compose.call2 [t1, t2] x y = t2 (t1 x y).1 (t1 x y).2 := rfl

/-- Claim C6: the composer constructed from an empty transform list is
the identity: on (x, y) in two-stream mode and on x alone in
one-stream mode. -/
theorem compose_empty_id_c6 (x y : T3) :
    Compose.call2 [] x y = (x, y) ∧ Compose.call1 [] x = x :=
  ⟨rfl, rfl⟩
